import Mathlib

/-!
Verification development for the dual-pipeline audio-capture / speech-recognition
FFI surface declared in `swift-plugin/Sources/AudioCapture/include/AudioBridge.h`.

The repository ships only the C header (declarations and doc comments); the
state machines behind the declarations are described by the specification.
Definitions below whose doc comment starts with `Modelled from the spec:` embed
that described behaviour; the status codes, operation names and signatures come
from the header itself.
-/

namespace AudioBridge

/-- Lifecycle state of one pipeline.  The header's status-code doc comment
(`0=idle, 1=starting, 2=active/capturing, 3=stopping, -1=error`) enumerates
exactly these five states. -/
inductive PipelineState where
  | idle
  | starting
  | active
  | stopping
  | errored
  deriving DecidableEq, Repr

/-- Integer status code returned by `audio_capture_get_status` /
`speech_get_status`, as documented in the header:
`0=空闲, 1=启动中, 2=捕获中/识别中, 3=停止中, -1=错误`. -/
def statusCode : PipelineState → Int
  | .idle => 0
  | .starting => 1
  | .active => 2
  | .stopping => 3
  | .errored => -1

/-- Result of the OS permission queries (`audio_capture_check_permission`,
`speech_check_permission`); an environment input, not pipeline state. -/
structure Permissions where
  audio : Bool
  speech : Bool
  deriving DecidableEq, Repr

/-- A captured audio buffer: samples plus the capture-engine timestamp
(`AudioSampleCallback` carries `samples`, `count`, `timestamp`).  Sample
values and the engine clock are abstracted to integers; the claims concern
delivery, not sample arithmetic. -/
structure AudioBuffer where
  samples : List Int
  timestamp : Nat
  deriving DecidableEq, Repr

/-- A transcription result as carried by `TranscriptionCallback`:
hypothesis text plus the finality flag. -/
structure TranscriptionResult where
  text : String
  is_final : Bool
  deriving DecidableEq, Repr

/-- Process-wide state: the two pipelines' lifecycle states, the four
callback slots (callback references modelled as numeric identifiers), and
the speech recognition language configuration. -/
structure SystemState where
  audioState : PipelineState
  speechState : PipelineState
  audioSampleCb : Option Nat
  audioErrorCb : Option Nat
  transcriptionCb : Option Nat
  speechErrorCb : Option Nat
  speechLanguage : String
  deriving DecidableEq, Repr

/-- Observable outputs emitted towards the foreign caller or the engine:
invocations of the four registered callback kinds, and buffers forwarded to
the recognition engine by `speech_append_audio`. -/
inductive Emit where
  | sampleInvoke (cb : Nat) (samples : List Int) (count : Nat) (timestamp : Nat)
  | transcriptionInvoke (cb : Nat) (text : String) (is_final : Bool)
  | audioErrorInvoke (cb : Nat) (message : String)
  | speechErrorInvoke (cb : Nat) (message : String)
  | engineForward (samples : List Int)
  deriving DecidableEq, Repr

/-- Modelled from the spec: the `start` transition logic is not in the
repository (the header only declares `audio_capture_start` / `speech_start`).
Spec §4.2/§4.3: `start` is valid only from Idle; the permission check fails
closed (returns false, state stays Idle); an accepted request immediately
transitions Idle → Starting and returns true; from any other state it
returns false and leaves the state unchanged. -/
def startRequest (perm : Bool) (s : PipelineState) : Bool × PipelineState :=
  if s = .idle then
    if perm then (true, .starting) else (false, .idle)
  else
    (false, s)

/-- Modelled from the spec: the `stop` transition logic is not in the
repository.  Spec §4.2: `stop` from Starting or Active transitions to
Stopping; from Idle it is a no-op; from Errored it is the designated
recovery path back to Idle; from Stopping it is a no-op. -/
def stopRequest : PipelineState → PipelineState
  | .starting => .stopping
  | .active => .stopping
  | .errored => .idle
  | s => s

/-- Modelled from the spec: asynchronous engine-teardown completion is not in
the repository.  Spec §4.2: the pipeline "transitions to Idle once teardown
completes" (Stopping → Idle); the event is ignored in every other state. -/
def teardownComplete : PipelineState → PipelineState
  | .stopping => .idle
  | s => s

/-- Modelled from the spec: the state observed after a `stop` call once the
engine teardown it requested has quiesced (spec §7: `stop` "always eventually
returns the pipeline to Idle"). -/
def stopSettled (s : PipelineState) : PipelineState :=
  teardownComplete (stopRequest s)

/-- Modelled from the spec: asynchronous engine-readiness signal is not in
the repository.  Spec §4.2: "on engine readiness the pipeline transitions
Starting → Active"; in any other state the signal is ignored. -/
def engineReadySignal : PipelineState → PipelineState
  | .starting => .active
  | s => s

/-- `audio_capture_check_permission` (header): queries the OS authorization
state; side-effect free. -/
def audio_capture_check_permission (p : Permissions) : Bool :=
  p.audio

/-- `speech_check_permission` (header): queries the OS authorization state;
side-effect free. -/
def speech_check_permission (p : Permissions) : Bool :=
  p.speech

/-- Modelled from the spec: the implementation of `audio_capture_start` is
not in the repository.  It applies `startRequest` to the audio pipeline with
the audio permission bit and returns the acceptance boolean; no callback is
invoked synchronously. -/
def audio_capture_start (p : Permissions) (st : SystemState) : Bool × SystemState :=
  let r := startRequest p.audio st.audioState
  (r.1, { st with audioState := r.2 })

/-- Modelled from the spec: the implementation of `audio_capture_stop` is not
in the repository.  It applies `stopRequest` to the audio pipeline. -/
def audio_capture_stop (st : SystemState) : SystemState :=
  { st with audioState := stopRequest st.audioState }

/-- `audio_capture_get_status` (header): returns the current audio pipeline
state as its integer code. -/
def audio_capture_get_status (st : SystemState) : Int :=
  statusCode st.audioState

/-- `audio_capture_set_callback` (header): replaces the audio sample-callback
slot. -/
def audio_capture_set_callback (cb : Option Nat) (st : SystemState) : SystemState :=
  { st with audioSampleCb := cb }

/-- `audio_capture_set_error_callback` (header): replaces the audio
error-callback slot. -/
def audio_capture_set_error_callback (cb : Option Nat) (st : SystemState) : SystemState :=
  { st with audioErrorCb := cb }

/-- Modelled from the spec: the implementation of `speech_start` is not in
the repository.  Mirrors `audio_capture_start` on the speech pipeline with
the speech permission bit. -/
def speech_start (p : Permissions) (st : SystemState) : Bool × SystemState :=
  let r := startRequest p.speech st.speechState
  (r.1, { st with speechState := r.2 })

/-- Modelled from the spec: the implementation of `speech_stop` is not in the
repository.  It applies `stopRequest` to the speech pipeline. -/
def speech_stop (st : SystemState) : SystemState :=
  { st with speechState := stopRequest st.speechState }

/-- `speech_get_status` (header): returns the current speech pipeline state
as its integer code. -/
def speech_get_status (st : SystemState) : Int :=
  statusCode st.speechState

/-- Modelled from the spec: the implementation of `speech_set_language` is
not in the repository.  Spec §4.3: sets the recognition language tag; may be
called in any state; returns void (no failure channel) and changes no
lifecycle state. -/
def speech_set_language (code : String) (st : SystemState) : SystemState :=
  { st with speechLanguage := code }

/-- Modelled from the spec: the implementation of `speech_supports_on_device`
is not in the repository.  Spec §4.3: a pure query of the configured
language's on-device capability; `supported` abstracts the platform's
capability table. -/
def speech_supports_on_device (supported : String → Bool) (st : SystemState) : Bool :=
  supported st.speechLanguage

/-- Modelled from the spec: the implementation of `speech_append_audio` is
not in the repository.  Spec §4.3: valid only while Active, where it forwards
the buffer to the recognition engine; in any other state it is a silent
no-op (no state change, no error, no callback). -/
def speech_append_audio (samples : List Int) (st : SystemState) : SystemState × List Emit :=
  (st, if st.speechState = .active then [Emit.engineForward samples] else [])

/-- `speech_set_callback` (header): replaces the transcription-callback
slot. -/
def speech_set_callback (cb : Option Nat) (st : SystemState) : SystemState :=
  { st with transcriptionCb := cb }

/-- `speech_set_error_callback` (header): replaces the speech error-callback
slot. -/
def speech_set_error_callback (cb : Option Nat) (st : SystemState) : SystemState :=
  { st with speechErrorCb := cb }

/-- Modelled from the spec: delivery of one captured buffer by the audio
engine is not in the repository.  Spec §4.2: while Active, the registered
sample callback is invoked exactly once per buffer with the buffer, its
sample count and the engine timestamp; with no callback registered the
buffer is dropped without error; outside Active the engine delivers
nothing. -/
def audioBufferDelivered (buf : AudioBuffer) (st : SystemState) : SystemState × List Emit :=
  (st,
    if st.audioState = .active then
      match st.audioSampleCb with
      | some c => [Emit.sampleInvoke c buf.samples buf.samples.length buf.timestamp]
      | none => []
    else [])

/-- Modelled from the spec: the audio engine's readiness signal handler is
not in the repository (spec §4.2, Starting → Active). -/
def audioEngineReady (st : SystemState) : SystemState :=
  { st with audioState := engineReadySignal st.audioState }

/-- Modelled from the spec: the audio teardown-completion handler is not in
the repository (spec §4.2, Stopping → Idle). -/
def audioTeardownDone (st : SystemState) : SystemState :=
  { st with audioState := teardownComplete st.audioState }

/-- Modelled from the spec: the audio engine-failure handler is not in the
repository.  Spec §4.2/§7: an unrecoverable engine failure transitions the
pipeline to Errored and invokes the audio-error callback once with the
engine's human-readable message; with no callback registered only the state
changes.  The handler is a total function: the failure is converted to a
state transition plus a callback, never an unhandled fault. -/
def audioEngineFailure (msg : String) (st : SystemState) : SystemState × List Emit :=
  ({ st with audioState := .errored },
    match st.audioErrorCb with
    | some c => [Emit.audioErrorInvoke c msg]
    | none => [])

/-- Modelled from the spec: the speech engine's readiness signal handler is
not in the repository (spec §4.3, Starting → Active). -/
def speechEngineReady (st : SystemState) : SystemState :=
  { st with speechState := engineReadySignal st.speechState }

/-- Modelled from the spec: the speech teardown-completion handler is not in
the repository (spec §4.3, Stopping → Idle). -/
def speechTeardownDone (st : SystemState) : SystemState :=
  { st with speechState := teardownComplete st.speechState }

/-- Modelled from the spec: the speech engine-failure handler is not in the
repository.  Mirrors `audioEngineFailure` on the speech pipeline and the
speech-error callback slot. -/
def speechEngineFailure (msg : String) (st : SystemState) : SystemState × List Emit :=
  ({ st with speechState := .errored },
    match st.speechErrorCb with
    | some c => [Emit.speechErrorInvoke c msg]
    | none => [])

/-- Modelled from the spec: delivery of one recognition update by the speech
engine is not in the repository.  Spec §4.3: while Active, the registered
transcription callback is invoked with the hypothesis text and finality
flag; with no callback registered the update is dropped; outside Active the
engine delivers nothing. -/
def speechRecognitionUpdate (text : String) (fin : Bool) (st : SystemState) :
    SystemState × List Emit :=
  (st,
    if st.speechState = .active then
      match st.transcriptionCb with
      | some c => [Emit.transcriptionInvoke c text fin]
      | none => []
    else [])

/-- Every operation touching the audio pipeline: caller-initiated FFI calls
and asynchronous audio-engine events. -/
inductive AudioOp where
  | start (p : Permissions)
  | stop
  | teardownDone
  | engineReady
  | engineFailure (msg : String)
  | bufferDelivered (buf : AudioBuffer)
  | setSampleCb (cb : Option Nat)
  | setErrorCb (cb : Option Nat)
  deriving DecidableEq, Repr

/-- Every operation touching the speech pipeline: caller-initiated FFI calls
and asynchronous speech-engine events. -/
inductive SpeechOp where
  | start (p : Permissions)
  | stop
  | teardownDone
  | engineReady
  | engineFailure (msg : String)
  | setLanguage (code : String)
  | appendAudio (samples : List Int)
  | recognitionUpdate (text : String) (fin : Bool)
  | setTranscriptionCb (cb : Option Nat)
  | setErrorCb (cb : Option Nat)
  deriving DecidableEq, Repr

/-- Uniform step function over audio-pipeline operations, returning the next
system state and the emitted callback invocations. -/
def audioStep : AudioOp → SystemState → SystemState × List Emit
  | .start p, st => ((audio_capture_start p st).2, [])
  | .stop, st => (audio_capture_stop st, [])
  | .teardownDone, st => (audioTeardownDone st, [])
  | .engineReady, st => (audioEngineReady st, [])
  | .engineFailure msg, st => audioEngineFailure msg st
  | .bufferDelivered buf, st => audioBufferDelivered buf st
  | .setSampleCb cb, st => (audio_capture_set_callback cb st, [])
  | .setErrorCb cb, st => (audio_capture_set_error_callback cb st, [])

/-- Uniform step function over speech-pipeline operations, returning the next
system state and the emitted callback invocations. -/
def speechStep : SpeechOp → SystemState → SystemState × List Emit
  | .start p, st => ((speech_start p st).2, [])
  | .stop, st => (speech_stop st, [])
  | .teardownDone, st => (speechTeardownDone st, [])
  | .engineReady, st => (speechEngineReady st, [])
  | .engineFailure msg, st => speechEngineFailure msg st
  | .setLanguage code, st => (speech_set_language code st, [])
  | .appendAudio samples, st => speech_append_audio samples st
  | .recognitionUpdate text fin, st => speechRecognitionUpdate text fin st
  | .setTranscriptionCb cb, st => (speech_set_callback cb st, [])
  | .setErrorCb cb, st => (speech_set_error_callback cb st, [])

/-- Modelled from the spec: the emission protocol of one utterance segment is
not in the repository.  Spec §3 (TranscriptionResult): zero or more partial
hypotheses, then at most one final result; `finalText = none` is a segment
abandoned because the pipeline was stopped mid-utterance. -/
structure UtteranceSegment where
  partialTexts : List String
  finalText : Option String
  deriving DecidableEq, Repr

/-- The sequence of transcription results the speech pipeline emits for one
utterance segment: every partial hypothesis with `is_final = false`, then
the final result (if any) with `is_final = true`. -/
def segmentTrace (seg : UtteranceSegment) : List TranscriptionResult :=
  seg.partialTexts.map (fun t => ⟨t, false⟩) ++
    (match seg.finalText with
      | some t => [⟨t, true⟩]
      | none => [])

/-- `true` iff no result in the list is followed by anything once a final
result has appeared: a final result is terminal in its segment. -/
def finalIsTerminal : List TranscriptionResult → Bool
  | [] => true
  | r :: rs => (!r.is_final || rs.isEmpty) && finalIsTerminal rs

/-- C1: For both pipelines, `start` from any state other than Idle returns
false and leaves the whole system state unchanged; `start` returns true
exactly when called from Idle with the permission granted, and then the
pipeline transitions to Starting. -/
theorem start_only_from_idle (p : Permissions) (st : SystemState) :
    (st.audioState ≠ .idle →
      (audio_capture_start p st).1 = false ∧ (audio_capture_start p st).2 = st) ∧
    ((audio_capture_start p st).1 = true ↔ st.audioState = .idle ∧ p.audio = true) ∧
    (st.audioState = .idle → p.audio = true →
      (audio_capture_start p st).2.audioState = .starting) ∧
    (st.speechState ≠ .idle →
      (speech_start p st).1 = false ∧ (speech_start p st).2 = st) ∧
    ((speech_start p st).1 = true ↔ st.speechState = .idle ∧ p.speech = true) ∧
    (st.speechState = .idle → p.speech = true →
      (speech_start p st).2.speechState = .starting) := by
  obtain ⟨a, s, c1, c2, c3, c4, lang⟩ := st
  refine ⟨?_, ?_, ?_, ?_, ?_, ?_⟩
  · intro h
    simp only [SystemState.audioState] at h
    simp [audio_capture_start, startRequest, h]
  · by_cases h : a = PipelineState.idle <;> by_cases hp : p.audio <;>
      simp [audio_capture_start, startRequest, h, hp]
  · intro h hp
    simp only [SystemState.audioState] at h
    simp [audio_capture_start, startRequest, h, hp]
  · intro h
    simp only [SystemState.speechState] at h
    simp [speech_start, startRequest, h]
  · by_cases h : s = PipelineState.idle <;> by_cases hp : p.speech <;>
      simp [speech_start, startRequest, h, hp]
  · intro h hp
    simp only [SystemState.speechState] at h
    simp [speech_start, startRequest, h, hp]

/-- Witness for C1 at concrete inputs: audio pipeline Active, speech pipeline
Idle, both permissions granted. -/
theorem start_only_from_idle_witness :
    (audio_capture_start ⟨true, true⟩
      ⟨.active, .idle, none, none, none, none, "en-US"⟩).1 = false ∧
    (audio_capture_start ⟨true, true⟩
      ⟨.active, .idle, none, none, none, none, "en-US"⟩).2 =
      ⟨.active, .idle, none, none, none, none, "en-US"⟩ ∧
    (speech_start ⟨true, true⟩
      ⟨.active, .idle, none, none, none, none, "en-US"⟩).2.speechState = .starting :=
  ⟨((start_only_from_idle ⟨true, true⟩
      ⟨.active, .idle, none, none, none, none, "en-US"⟩).1 (by decide)).1,
   ((start_only_from_idle ⟨true, true⟩
      ⟨.active, .idle, none, none, none, none, "en-US"⟩).1 (by decide)).2,
   (start_only_from_idle ⟨true, true⟩
      ⟨.active, .idle, none, none, none, none, "en-US"⟩).2.2.2.2.2 rfl rfl⟩

/-- C2: For both pipelines, when the permission check fails `start` returns
false, the system state (in particular the pipeline state, which stays Idle)
is unchanged, and no callback invocation of any kind is emitted — the
failure is surfaced only as the boolean result. -/
theorem permission_denied_start_fails_closed (p : Permissions) (st : SystemState) :
    (p.audio = false → st.audioState = .idle →
      (audio_capture_start p st).1 = false ∧ (audio_capture_start p st).2 = st ∧
      (audioStep (.start p) st).2 = []) ∧
    (p.speech = false → st.speechState = .idle →
      (speech_start p st).1 = false ∧ (speech_start p st).2 = st ∧
      (speechStep (.start p) st).2 = []) := by
  obtain ⟨a, s, c1, c2, c3, c4, lang⟩ := st
  constructor
  · intro hp h
    simp only [SystemState.audioState] at h
    subst h
    simp [audio_capture_start, startRequest, hp, audioStep]
  · intro hp h
    simp only [SystemState.speechState] at h
    subst h
    simp [speech_start, startRequest, hp, speechStep]

/-- Witness for C2 at a concrete input: both permissions denied, both
pipelines Idle. -/
theorem permission_denied_start_fails_closed_witness :
    (audio_capture_start ⟨false, false⟩
      ⟨.idle, .idle, none, none, none, none, "en-US"⟩).1 = false ∧
    (speech_start ⟨false, false⟩
      ⟨.idle, .idle, none, none, none, none, "en-US"⟩).2 =
      ⟨.idle, .idle, none, none, none, none, "en-US"⟩ :=
  ⟨((permission_denied_start_fails_closed ⟨false, false⟩
      ⟨.idle, .idle, none, none, none, none, "en-US"⟩).1 rfl rfl).1,
   ((permission_denied_start_fails_closed ⟨false, false⟩
      ⟨.idle, .idle, none, none, none, none, "en-US"⟩).2 rfl rfl).2.1⟩

/-- C3: For both pipelines, `stop` (each call settled by the engine's
teardown completion) is idempotent and always lands in Idle when applied
twice from any state; `stop` in Idle is a complete no-op, and `stop` in
Errored is the recovery transition to Idle. -/
theorem stop_idempotent_settles_idle (st : SystemState) :
    (audioTeardownDone (audio_capture_stop
      (audioTeardownDone (audio_capture_stop st)))).audioState = .idle ∧
    (speechTeardownDone (speech_stop
      (speechTeardownDone (speech_stop st)))).speechState = .idle ∧
    (st.audioState = .idle → audio_capture_stop st = st) ∧
    (st.speechState = .idle → speech_stop st = st) ∧
    (st.audioState = .errored → (audio_capture_stop st).audioState = .idle) ∧
    (st.speechState = .errored → (speech_stop st).speechState = .idle) := by
  obtain ⟨a, s, c1, c2, c3, c4, lang⟩ := st
  refine ⟨?_, ?_, ?_, ?_, ?_, ?_⟩
  · cases a <;> simp [audio_capture_stop, audioTeardownDone, stopRequest, teardownComplete]
  · cases s <;> simp [speech_stop, speechTeardownDone, stopRequest, teardownComplete]
  · intro h
    simp only [SystemState.audioState] at h
    subst h
    simp [audio_capture_stop, stopRequest]
  · intro h
    simp only [SystemState.speechState] at h
    subst h
    simp [speech_stop, stopRequest]
  · intro h
    simp only [SystemState.audioState] at h
    subst h
    simp [audio_capture_stop, stopRequest]
  · intro h
    simp only [SystemState.speechState] at h
    subst h
    simp [speech_stop, stopRequest]

/-- Witness for C3 at concrete inputs: audio pipeline Idle (no-op case) and
speech pipeline Errored (recovery case). -/
theorem stop_idempotent_settles_idle_witness :
    audio_capture_stop ⟨.idle, .errored, none, none, none, none, "en-US"⟩ =
      ⟨.idle, .errored, none, none, none, none, "en-US"⟩ ∧
    (speech_stop ⟨.idle, .errored, none, none, none, none, "en-US"⟩).speechState = .idle :=
  ⟨(stop_idempotent_settles_idle
      ⟨.idle, .errored, none, none, none, none, "en-US"⟩).2.2.1 rfl,
   (stop_idempotent_settles_idle
      ⟨.idle, .errored, none, none, none, none, "en-US"⟩).2.2.2.2.2 rfl⟩

/-- C4: For both pipelines, Errored is absorbing under every operation other
than `stop` — no start request, engine event, callback registration or other
operation leaves Errored — and `stop` is the only transition out of
Errored, taking the pipeline to Idle. -/
theorem errored_absorbing_until_stop (aop : AudioOp) (sop : SpeechOp) (st : SystemState) :
    (st.audioState = .errored → aop ≠ AudioOp.stop →
      (audioStep aop st).1.audioState = .errored) ∧
    (st.audioState = .errored → (audioStep AudioOp.stop st).1.audioState = .idle) ∧
    (st.speechState = .errored → sop ≠ SpeechOp.stop →
      (speechStep sop st).1.speechState = .errored) ∧
    (st.speechState = .errored → (speechStep SpeechOp.stop st).1.speechState = .idle) := by
  refine ⟨?_, ?_, ?_, ?_⟩
  · intro h hop
    cases aop <;>
      simp [audioStep, audio_capture_start, audio_capture_stop, audioTeardownDone,
        audioEngineReady, audioEngineFailure, audioBufferDelivered,
        audio_capture_set_callback, audio_capture_set_error_callback,
        startRequest, teardownComplete, engineReadySignal, h] at hop ⊢
  · intro h
    simp [audioStep, audio_capture_stop, stopRequest, h]
  · intro h hop
    cases sop <;>
      simp [speechStep, speech_start, speech_stop, speechTeardownDone,
        speechEngineReady, speechEngineFailure, speech_set_language,
        speech_append_audio, speechRecognitionUpdate, speech_set_callback,
        speech_set_error_callback, startRequest, teardownComplete,
        engineReadySignal, h] at hop ⊢
  · intro h
    simp [speechStep, speech_stop, stopRequest, h]

/-- Witness for C4 at concrete inputs: both pipelines Errored; an engine
readiness signal does not leave Errored, `stop` returns to Idle. -/
theorem errored_absorbing_until_stop_witness :
    (audioStep AudioOp.engineReady
      ⟨.errored, .errored, none, none, none, none, "en-US"⟩).1.audioState = .errored ∧
    (speechStep SpeechOp.stop
      ⟨.errored, .errored, none, none, none, none, "en-US"⟩).1.speechState = .idle :=
  ⟨(errored_absorbing_until_stop AudioOp.engineReady SpeechOp.engineReady
      ⟨.errored, .errored, none, none, none, none, "en-US"⟩).1 rfl (by decide),
   (errored_absorbing_until_stop AudioOp.engineReady SpeechOp.engineReady
      ⟨.errored, .errored, none, none, none, none, "en-US"⟩).2.2.2 rfl⟩

/-- The number of final results in a segment trace is 1 when the segment has
a final result and 0 when it was abandoned. -/
theorem countP_segmentTrace (ps : List String) (f : Option String) :
    (segmentTrace ⟨ps, f⟩).countP (fun r => r.is_final) =
      match f with
      | some _ => 1
      | none => 0 := by
  induction ps with
  | nil => cases f <;> simp [segmentTrace]
  | cons t ts ih =>
      have h : segmentTrace ⟨t :: ts, f⟩ = ⟨t, false⟩ :: segmentTrace ⟨ts, f⟩ := by
        simp [segmentTrace]
      rw [h, List.countP_cons]
      simp [ih]

/-- A final result, when present, is the last element of its segment trace. -/
theorem finalIsTerminal_segmentTrace (ps : List String) (f : Option String) :
    finalIsTerminal (segmentTrace ⟨ps, f⟩) = true := by
  induction ps with
  | nil => cases f <;> simp [segmentTrace, finalIsTerminal]
  | cons t ts ih =>
      have h : segmentTrace ⟨t :: ts, f⟩ = ⟨t, false⟩ :: segmentTrace ⟨ts, f⟩ := by
        simp [segmentTrace]
      rw [h]
      simp [finalIsTerminal, ih]

/-- C5: Within one utterance segment the emitted transcription results carry
at most one `is_final = true` result, nothing of the segment follows a final
result (so later partials belong to a new segment), and a segment abandoned
by `stop` (no final text) ends with no final result at all. -/
theorem transcription_finality_sequencing (seg : UtteranceSegment) :
    (segmentTrace seg).countP (fun r => r.is_final) ≤ 1 ∧
    finalIsTerminal (segmentTrace seg) = true ∧
    (seg.finalText = none → (segmentTrace seg).countP (fun r => r.is_final) = 0) := by
  obtain ⟨ps, f⟩ := seg
  refine ⟨?_, finalIsTerminal_segmentTrace ps f, ?_⟩
  · rw [countP_segmentTrace]
    cases f <;> simp
  · intro h
    simp only at h
    subst h
    rw [countP_segmentTrace]

/-- Witness for C5 at a concrete input: a segment with two partials,
abandoned without a final result. -/
theorem transcription_finality_sequencing_witness :
    (segmentTrace ⟨["he", "hel"], none⟩).countP (fun r => r.is_final) = 0 :=
  (transcription_finality_sequencing ⟨["he", "hel"], none⟩).2.2 rfl

/-- C6: Delivering a captured buffer never changes the system state; while
Active with a sample callback registered the callback is invoked exactly
once, with the buffer, its sample count and the capture timestamp; with no
callback registered the buffer is dropped with no emission at all. -/
theorem buffer_delivery_exactly_once_or_dropped (buf : AudioBuffer) (st : SystemState) :
    (audioBufferDelivered buf st).1 = st ∧
    (st.audioState = .active → ∀ c, st.audioSampleCb = some c →
      (audioBufferDelivered buf st).2 =
        [Emit.sampleInvoke c buf.samples buf.samples.length buf.timestamp]) ∧
    (st.audioSampleCb = none → (audioBufferDelivered buf st).2 = []) := by
  refine ⟨rfl, ?_, ?_⟩
  · intro h c hc
    simp [audioBufferDelivered, h, hc]
  · intro hc
    simp [audioBufferDelivered, hc]

/-- Witness for C6 at a concrete input: Active pipeline, callback 7
registered, a two-sample buffer with timestamp 9. -/
theorem buffer_delivery_exactly_once_or_dropped_witness :
    (audioBufferDelivered ⟨[3, 4], 9⟩
      ⟨.active, .idle, some 7, none, none, none, "en-US"⟩).2 =
      [Emit.sampleInvoke 7 [3, 4] 2 9] :=
  (buffer_delivery_exactly_once_or_dropped ⟨[3, 4], 9⟩
      ⟨.active, .idle, some 7, none, none, none, "en-US"⟩).2.1 rfl 7 rfl

/-- C7: `speech_append_audio` never changes the system state; while Active it
forwards exactly the given buffer to the recognition engine; in every other
state it emits nothing — no error, no callback, no forwarding. -/
theorem append_audio_active_only (samples : List Int) (st : SystemState) :
    (speech_append_audio samples st).1 = st ∧
    (st.speechState = .active →
      (speech_append_audio samples st).2 = [Emit.engineForward samples]) ∧
    (st.speechState ≠ .active → (speech_append_audio samples st).2 = []) := by
  refine ⟨rfl, ?_, ?_⟩
  · intro h
    simp [speech_append_audio, h]
  · intro h
    simp [speech_append_audio, h]

/-- Witness for C7 at concrete inputs: an Idle pipeline ignores the buffer,
an Active pipeline forwards it. -/
theorem append_audio_active_only_witness :
    (speech_append_audio [1] ⟨.idle, .idle, none, none, none, none, "en-US"⟩).2 = [] ∧
    (speech_append_audio [1] ⟨.idle, .active, none, none, none, none, "en-US"⟩).2 =
      [Emit.engineForward [1]] :=
  ⟨(append_audio_active_only [1]
      ⟨.idle, .idle, none, none, none, none, "en-US"⟩).2.2 (by decide),
   (append_audio_active_only [1]
      ⟨.idle, .active, none, none, none, none, "en-US"⟩).2.1 rfl⟩

/-- C8: When the engine fails after an accepted start (pipeline Starting)
and an error callback is registered, the pipeline lands in Errored
(`get_status` returns −1) and the error callback is invoked exactly once,
with the engine's non-empty message; the failure is a state transition plus
a callback, never an unhandled fault. -/
theorem engine_failure_errored_callback_once (msg : String) (c : Nat) (st : SystemState) :
    (st.audioState = .starting → st.audioErrorCb = some c → msg ≠ "" →
      audio_capture_get_status (audioEngineFailure msg st).1 = -1 ∧
      (audioEngineFailure msg st).2 = [Emit.audioErrorInvoke c msg] ∧
      (∀ cb m, Emit.audioErrorInvoke cb m ∈ (audioEngineFailure msg st).2 → m ≠ "")) ∧
    (st.speechState = .starting → st.speechErrorCb = some c → msg ≠ "" →
      speech_get_status (speechEngineFailure msg st).1 = -1 ∧
      (speechEngineFailure msg st).2 = [Emit.speechErrorInvoke c msg] ∧
      (∀ cb m, Emit.speechErrorInvoke cb m ∈ (speechEngineFailure msg st).2 → m ≠ "")) := by
  constructor
  · intro _ hc hmsg
    refine ⟨rfl, by simp [audioEngineFailure, hc], ?_⟩
    intro cb m hm
    simp [audioEngineFailure, hc] at hm
    rcases hm with ⟨_, rfl⟩
    exact hmsg
  · intro _ hc hmsg
    refine ⟨rfl, by simp [speechEngineFailure, hc], ?_⟩
    intro cb m hm
    simp [speechEngineFailure, hc] at hm
    rcases hm with ⟨_, rfl⟩
    exact hmsg

/-- Witness for C8 at a concrete input: both pipelines Starting, error
callbacks 3 and 4 registered, engine message "setup failed". -/
theorem engine_failure_errored_callback_once_witness :
    audio_capture_get_status
      (audioEngineFailure "setup failed"
        ⟨.starting, .starting, none, some 3, none, some 4, "en-US"⟩).1 = -1 ∧
    (audioEngineFailure "setup failed"
        ⟨.starting, .starting, none, some 3, none, some 4, "en-US"⟩).2 =
      [Emit.audioErrorInvoke 3 "setup failed"] :=
  ⟨((engine_failure_errored_callback_once "setup failed" 3
      ⟨.starting, .starting, none, some 3, none, some 4, "en-US"⟩).1 rfl rfl
      (by decide)).1,
   ((engine_failure_errored_callback_once "setup failed" 3
      ⟨.starting, .starting, none, some 3, none, some 4, "en-US"⟩).1 rfl rfl
      (by decide)).2.1⟩

/-- C9: The two pipelines are independent: every audio-pipeline operation
leaves the speech pipeline's state, callbacks and language configuration
unchanged, and every speech-pipeline operation leaves the audio pipeline's
state and callbacks unchanged. -/
theorem pipelines_independent (aop : AudioOp) (sop : SpeechOp) (st : SystemState) :
    (audioStep aop st).1.speechState = st.speechState ∧
    (audioStep aop st).1.transcriptionCb = st.transcriptionCb ∧
    (audioStep aop st).1.speechErrorCb = st.speechErrorCb ∧
    (audioStep aop st).1.speechLanguage = st.speechLanguage ∧
    (speechStep sop st).1.audioState = st.audioState ∧
    (speechStep sop st).1.audioSampleCb = st.audioSampleCb ∧
    (speechStep sop st).1.audioErrorCb = st.audioErrorCb := by
  refine ⟨?_, ?_, ?_, ?_, ?_, ?_, ?_⟩ <;>
    first
      | (cases aop <;>
          simp [audioStep, audio_capture_start, audio_capture_stop, audioTeardownDone,
            audioEngineReady, audioEngineFailure, audioBufferDelivered,
            audio_capture_set_callback, audio_capture_set_error_callback])
      | (cases sop <;>
          simp [speechStep, speech_start, speech_stop, speechTeardownDone,
            speechEngineReady, speechEngineFailure, speech_set_language,
            speech_append_audio, speechRecognitionUpdate, speech_set_callback,
            speech_set_error_callback])

/-- C10: `speech_set_language` accepts any language code in any state and
always returns: it changes neither pipeline's lifecycle state, emits no
callback invocation (in particular no error), records the code in the
configuration, and its effect is observable through
`speech_supports_on_device` applied to the new configuration. -/
theorem set_language_total_no_failure (code : String) (supported : String → Bool)
    (st : SystemState) :
    (speech_set_language code st).speechState = st.speechState ∧
    (speech_set_language code st).audioState = st.audioState ∧
    (speech_set_language code st).speechLanguage = code ∧
    (speechStep (SpeechOp.setLanguage code) st).2 = [] ∧
    speech_supports_on_device supported (speech_set_language code st) = supported code :=
  ⟨rfl, rfl, rfl, rfl, rfl⟩

end AudioBridge
